import Mathlib

/-!
Verification of the UK vehicle-score Telegram bot (`bot.py`, `web.py`)
against its specification.

The Python source is shallowly embedded: the pure helpers become Lean
functions on `String` / `List Char`; the Telegram handlers become
functions from the per-chat session state and the incoming message to
the new state plus the list of actions they perform; and the Playwright
capture routine `take_screenshot_full` becomes a function from an
abstract environment (recording which browser operations fail) to the
propagated outcome plus the trace of browser calls, mirroring Python
`try`/`finally` semantics.  The in-page scroll script is embedded as a
function of the sequence of observed scroll heights.
-/

/-! ## Normalizer (bot.py line 63) -/

/-- Whitespace as Python `str.strip()` removes it, restricted to the
ASCII range the bot ever sees: space, tab, newline, carriage return,
vertical tab and form feed. -/
def isPySpace (c : Char) : Bool :=
  c == ' ' || c == '\t' || c == '\n' || c == '\r' || c == '\x0b' || c == '\x0c'

/-- Python `str.strip()`: drop leading and trailing whitespace. -/
def pyStrip (l : List Char) : List Char :=
  ((l.dropWhile isPySpace).reverse.dropWhile isPySpace).reverse

/-- Python `str.upper()` on the ASCII range: core `Char.toUpper` maps
`a`..`z` to `A`..`Z` and leaves every other character unchanged,
which agrees with Python on ASCII text. -/
def pyUpper (l : List Char) : List Char := l.map Char.toUpper

/-- Python `str.replace(" ", "")`: drop every space character (only
U+0020; no other whitespace is touched). -/
def pyDropSpaces (l : List Char) : List Char := l.filter (fun c => c != ' ')

/-- Embedding of `normalize_plate(text)` (bot.py lines 63-64):
`(text or "").strip().upper().replace(" ", "")`.  The argument is an
`Option` because `update.message.text` can be Python `None`, which
`(text or "")` turns into the empty string. -/
def normalize_plate (text : Option String) : String :=
  ⟨pyDropSpaces (pyUpper (pyStrip (text.getD "").data))⟩

/-! ## Validator (bot.py line 36) -/

/-- The character class `[A-Z0-9]` of `PLATE_RE` as compiled with
`re.IGNORECASE` (bot.py line 36): ASCII letters of either case, or
digits. -/
def plateClassChar (c : Char) : Bool :=
  (decide ('A' ≤ c) && decide (c ≤ 'Z')) ||
    (decide ('a' ≤ c) && decide (c ≤ 'z')) ||
    (decide ('0' ≤ c) && decide (c ≤ '9'))

/-- The regex body `[A-Z0-9]{2,8}` (case-insensitive) matched against a
whole character list: 2 to 8 characters, all in the class. -/
def plateBody (l : List Char) : Bool :=
  decide (2 ≤ l.length) && decide (l.length ≤ 8) && l.all plateClassChar

/-- Embedding of `PLATE_RE.match(v)` as a Boolean (bot.py lines 36 and
178): the pattern `^[A-Z0-9]{2,8}$` compiled with `re.IGNORECASE`.
Python `$` matches at the end of the string or just before a single
newline at the end of the string, so `v` matches iff the whole of `v`,
or `v` minus one trailing newline, fits the body. -/
def PLATE_RE_match (v : String) : Bool :=
  plateBody v.data ||
    (v.data.getLast? == some '\n' && plateBody v.data.dropLast)

/-! ## URL builder (bot.py lines 30, 186, 207) -/

/-- Embedding of `BASE_URL` (bot.py line 30), a Python format template
with one `reg` field. -/
def BASE_URL : String := "https://vehiclescore.co.uk/score?registration={reg}"

/-- Python `str.format(reg=...)` for templates whose only field is
`reg`: substitute the replacement text for every occurrence of the
brace-delimited `reg` placeholder. -/
def substReg (reg : List Char) : List Char → List Char
  | [] => []
  | '\x7b' :: 'r' :: 'e' :: 'g' :: '\x7d' :: rest => reg ++ substReg reg rest
  | c :: rest => c :: substReg reg rest

/-- Embedding of `BASE_URL.format(reg=plate)` (bot.py lines 186, 207). -/
def buildURL (plate : String) : String :=
  ⟨substReg plate.data BASE_URL.data⟩

/-- The fixed endpoint in front of the query parameter, the "base" of
the specification's URL-builder contract. -/
def scoreBase : String := "https://vehiclescore.co.uk/score"

/-! ## Session state and the text handler (bot.py lines 175-192) -/

/-- Per-chat session state: `context.user_data` holds at most the one
key `"plate"` (written at bot.py line 182, read at line 202). -/
structure Session where
  plate : Option String
deriving DecidableEq, Repr

/-- Replies `on_plate_text` can send. -/
inductive PlateReply
  | text (msg : String)
  | textWithKeyboard (msg : String) (shotCallback : String) (linkUrl : String)
deriving DecidableEq, Repr

/-- Rejection message for an input that fails `PLATE_RE` (bot.py
line 179). -/
def rejectText : String := "فرمت پلاک درست نیست. مثال: VN64NWG"

/-- Prompt sent when the screenshot callback fires with no stored
plate (bot.py line 204). -/
def sendPlateFirstText : String := "اول پلاک رو بفرست (مثال: VN64NWG)"

/-- Embedding of `on_plate_text` (bot.py lines 175-192): normalize the
message text; if `PLATE_RE` does not match, send the rejection and
leave the session alone; otherwise store the plate in the session and
send the confirmation with the screenshot button (callback data
`"shot"`) and the direct link. -/
def on_plate_text (msgText : Option String) (s : Session) :
    Session × List PlateReply :=
  let plate := normalize_plate msgText
  if !PLATE_RE_match plate then
    (s, [PlateReply.text rejectText])
  else
    ({ plate := some plate },
      [PlateReply.textWithKeyboard
        ("پلاک: " ++ plate ++ "\nمی‌خوای اسکرین‌شات صفحه رو بگیرم؟")
        "shot"
        (buildURL plate)])

/-! ## Playwright capture engine (bot.py lines 70-162) -/

/-- Observable browser-automation calls `take_screenshot_full` makes,
in order. -/
inductive PwEvent
  | launch
  | newContext
  | newPage
  | goto (url : String)
  | waitForTimeout (ms : Nat)
  | evaluateScroll
  | screenshot (path : String) (fullPage : Bool)
  | closeContext
  | closeBrowser
deriving DecidableEq, Repr

/-- Exceptions a browser call inside the `try` block can raise. -/
inductive PwError
  | navTimeout
  | evalError
  | shotError
deriving DecidableEq, Repr

/-- Which of the fallible browser operations fail in a given run; this
is the test double of the specification's resource-invariant scenario.
`gotoTimesOut` means `page.goto` does not reach `domcontentloaded`
within its 45000 ms bound. -/
structure PwEnv where
  gotoTimesOut : Bool
  evalRaises : Bool
  shotRaises : Bool
deriving DecidableEq, Repr

/-- Embedding of `take_screenshot_full(url, out_path)` (bot.py lines
70-162).  Setup: `chromium.launch`, `new_context`, `new_page`.  Then a
`try` block: `goto(url, wait_until="domcontentloaded", timeout=45000)`,
`wait_for_timeout(2500)`, `wait_for_timeout(8000)`, `evaluate(...)`
(the scroll script), `screenshot(path=out_path, full_page=True)`; and a
`finally` block: `context.close()`, `browser.close()`.  There is no
`except` clause, so the first exception in the `try` block skips the
rest of the block, the `finally` block still runs, and the exception is
then re-raised to the caller.  Returns the propagated outcome and the
trace of browser calls made (a `screenshot` event records the call
being made; when `shotRaises` is set the call raises and no image is
written). -/
def take_screenshot_full (env : PwEnv) (url out_path : String) :
    Except PwError Unit × List PwEvent :=
  let tryBlock : Except PwError Unit × List PwEvent :=
    if env.gotoTimesOut then
      (.error .navTimeout, [.goto url])
    else if env.evalRaises then
      (.error .evalError,
        [.goto url, .waitForTimeout 2500, .waitForTimeout 8000, .evaluateScroll])
    else if env.shotRaises then
      (.error .shotError,
        [.goto url, .waitForTimeout 2500, .waitForTimeout 8000, .evaluateScroll,
          .screenshot out_path true])
    else
      (.ok (),
        [.goto url, .waitForTimeout 2500, .waitForTimeout 8000, .evaluateScroll,
          .screenshot out_path true])
  (tryBlock.1,
    [PwEvent.launch, PwEvent.newContext, PwEvent.newPage] ++ tryBlock.2 ++
      [PwEvent.closeContext, PwEvent.closeBrowser])

/-! ## Callback handler (bot.py lines 195-221) -/

/-- Actions `on_callback` performs, in order. -/
inductive CbAction
  | answerQuery
  | editMessage (msg : String)
  | capture (url : String) (path : String)
  | replyPhoto (path : String) (caption : String)
  | replyText (msg : String)
  | unlink (path : String)
deriving DecidableEq, Repr

/-- Python truthiness of `context.user_data.get("plate")`: `None` and
the empty string are both falsy. -/
def plateFalsy : Option String → Bool
  | none => true
  | some p => p.isEmpty

/-- Destination path `str(TMP_DIR / f"{plate}.png")` with
`TMP_DIR = Path("/tmp")` (bot.py lines 32, 208). -/
def outPath (plate : String) : String := "/tmp/" ++ plate ++ ".png"

/-- The destination path of a screenshot job.  A job belongs to one
chat, but as in the source (bot.py line 208) the chat id takes no part
in the path: only the plate does. -/
def jobOutPath (_chatId : Nat) (plate : String) : String := outPath plate

/-- Environment for one callback invocation: whether the awaited
`take_screenshot_full` call succeeds, and the rendered exception text
when it does not. -/
structure CbEnv where
  captureOk : Bool
  errText : String
deriving DecidableEq, Repr

/-- Embedding of `on_callback` (bot.py lines 195-221): answer the
callback query; ignore callback data other than `"shot"`; if the
session holds no (or an empty) plate, edit the message to the
send-a-plate-first prompt and stop; otherwise build the URL and the
output path, announce progress, and inside `try` run the capture and
reply with the photo, on exception reply with the error text, and in
`finally` unlink the artifact.  The session state is never written. -/
def on_callback (data : String) (s : Session) (env : CbEnv) : List CbAction :=
  [CbAction.answerQuery] ++
    (if data != "shot" then []
     else if plateFalsy s.plate then [CbAction.editMessage sendPlateFirstText]
     else
       let plate := s.plate.getD ""
       let url := buildURL plate
       let path := outPath plate
       [CbAction.editMessage ("در حال گرفتن اسکرین‌شات کامل برای: " ++ plate ++ " ...")] ++
         (if env.captureOk then
            [CbAction.capture url path, CbAction.replyPhoto path (plate ++ "\n" ++ url)]
          else
            [CbAction.capture url path, CbAction.replyText ("خطا: " ++ env.errText)]) ++
         [CbAction.unlink path])

/-! ## The in-page scroll loop (bot.py lines 128-146) -/

/-- Iteration count of the scroll loop, parametrized by the sequence
`hs` of `scroller.scrollHeight` readings (reading `hs i` is taken at
loop iteration `i`, after the scroll and the 1400 ms sleep).
`scrollIters hs fuel i last stable` counts how many more iterations of
the JS `for` body run when `fuel` iterations remain before the `i < 35`
bound, the next reading is `hs i`, and the JS variables `lastHeight`
and `stableCount` hold `last` and `stable`: on `h === lastHeight` the
streak grows and the loop breaks once it reaches 3, otherwise the
streak resets to 0; either way `lastHeight` becomes `h`. -/
def scrollIters (hs : Nat → Int) : Nat → Nat → Int → Nat → Nat
  | 0, _, _, _ => 0
  | fuel + 1, i, last, stable =>
    let h := hs i
    if h = last then
      if stable + 1 ≥ 3 then 1
      else 1 + scrollIters hs fuel (i + 1) h (stable + 1)
    else 1 + scrollIters hs fuel (i + 1) h 0

/-- Number of iterations the scroll loop executes:
`for (let i = 0; i < 35; i++)` starting from `lastHeight = -1`,
`stableCount = 0`. -/
def scrollLoopCount (hs : Nat → Int) : Nat := scrollIters hs 35 0 (-1) 0

/-- The value the loop compares reading `hs i` against: `-1` before
the first iteration, afterwards the previous reading. -/
def prevReading (hs : Nat → Int) : Nat → Int
  | 0 => -1
  | i + 1 => hs i

/-- Specification-side description of `stableCount` directly as a
function of the readings: its value after iteration `i` completes
without breaking is the length of the streak of consecutive readings
equal to their predecessor, ending at `i`. -/
def stableAfter (hs : Nat → Int) : Nat → Nat
  | 0 => if hs 0 = -1 then 1 else 0
  | i + 1 => if hs (i + 1) = hs i then stableAfter hs i + 1 else 0

/-- The value of `stableCount` entering iteration `i`. -/
def prevStable (hs : Nat → Int) : Nat → Nat
  | 0 => 0
  | i + 1 => stableAfter hs i

/-! ## Specification-side predicates (for refinement statements) -/

/-- The specification's pattern `^[A-Z0-9]{2,8}$` read literally,
without `IGNORECASE` — 2 to 8 characters, each an uppercase ASCII
letter or a digit.  This follows the spec's words, for comparison with
the source-derived matcher `PLATE_RE_match`. -/
def strictPlateSpec (v : String) : Prop :=
  2 ≤ v.data.length ∧ v.data.length ≤ 8 ∧
    ∀ c ∈ v.data, ('A' ≤ c ∧ c ≤ 'Z') ∨ ('0' ≤ c ∧ c ≤ '9')

/-- The case-insensitive reading of the plate pattern, as
`re.IGNORECASE` actually compiles it: 2 to 8 characters, each an ASCII
letter of either case or a digit. -/
def insensitivePlateSpec (l : List Char) : Prop :=
  2 ≤ l.length ∧ l.length ≤ 8 ∧
    ∀ c ∈ l, ('A' ≤ c ∧ c ≤ 'Z') ∨ ('a' ≤ c ∧ c ≤ 'z') ∨ ('0' ≤ c ∧ c ≤ '9')

/-! ## Helper lemmas about characters -/

theorem toUpper_isLower_false (c : Char) : (Char.toUpper c).isLower = false := by
  unfold Char.toUpper
  by_cases h : c.toNat ≥ 97 ∧ c.toNat ≤ 122
  · rw [if_pos h]
    have hvalid : (c.toNat - 32).isValidChar := Or.inl (by omega)
    have hval : (Char.ofNat (c.toNat - 32)).val.toBitVec.toNat = c.toNat - 32 := by
      rw [Char.ofNat, dif_pos hvalid]
      rfl
    have h97 : (UInt32.toBitVec 97).toNat = 97 := rfl
    have h122 : (UInt32.toBitVec 122).toNat = 122 := rfl
    simp only [Char.isLower, Bool.and_eq_false_iff, decide_eq_false_iff_not, ge_iff_le,
      UInt32.le_def, BitVec.le_def, hval, h97, h122]
    omega
  · rw [if_neg h]
    have h97 : (UInt32.toBitVec 97).toNat = 97 := rfl
    have h122 : (UInt32.toBitVec 122).toNat = 122 := rfl
    have hc : c.val.toBitVec.toNat = c.toNat := rfl
    simp only [Char.isLower, Bool.and_eq_false_iff, decide_eq_false_iff_not, ge_iff_le,
      UInt32.le_def, BitVec.le_def, h97, h122, hc]
    omega

/-! ## Helper lemmas about the URL builder and paths -/

theorem buildURL_eq (v : String) :
    buildURL v = scoreBase ++ "?registration=" ++ v := by
  apply String.ext
  show substReg v.data BASE_URL.data = _
  simp [String.data_append, substReg, BASE_URL, scoreBase]

theorem outPath_inj (p1 p2 : String) (h : outPath p1 = outPath p2) : p1 = p2 := by
  unfold outPath at h
  have hd := congrArg String.data h
  simp only [String.data_append] at hd
  exact String.ext (List.append_cancel_left (List.append_cancel_right hd))

/-! ## Helper lemmas about the scroll loop -/

theorem stableAfter_eq (hs : Nat → Int) (i : Nat) :
    stableAfter hs i =
      if hs i = prevReading hs i then prevStable hs i + 1 else 0 := by
  cases i <;> rfl

theorem scrollIters_le (hs : Nat → Int) :
    ∀ fuel i last stable, scrollIters hs fuel i last stable ≤ fuel := by
  intro fuel
  induction fuel with
  | zero => intro i last stable; simp [scrollIters]
  | succ n ih =>
    intro i last stable
    simp only [scrollIters]
    by_cases h : hs i = last
    · rw [if_pos h]
      by_cases h3 : stable + 1 ≥ 3
      · rw [if_pos h3]; omega
      · rw [if_neg h3]
        have := ih (i + 1) (hs i) (stable + 1)
        omega
    · rw [if_neg h]
      have := ih (i + 1) (hs i) 0
      omega

theorem scrollIters_no_break (hs : Nat → Int) :
    ∀ fuel i, (∀ k, i ≤ k → k < i + fuel → stableAfter hs k < 3) →
      scrollIters hs fuel i (prevReading hs i) (prevStable hs i) = fuel := by
  intro fuel
  induction fuel with
  | zero => intro i _; rfl
  | succ n ih =>
    intro i hk
    have hlt : stableAfter hs i < 3 := hk i (le_refl i) (by omega)
    rw [stableAfter_eq] at hlt
    simp only [scrollIters]
    by_cases h : hs i = prevReading hs i
    · rw [if_pos h]
      rw [if_pos h] at hlt
      have hno : ¬ prevStable hs i + 1 ≥ 3 := by omega
      rw [if_neg hno]
      have hnext : prevStable hs (i + 1) = prevStable hs i + 1 := by
        show stableAfter hs i = _
        rw [stableAfter_eq, if_pos h]
      have hread : prevReading hs (i + 1) = hs i := rfl
      have := ih (i + 1) (fun k hk1 hk2 => hk k (by omega) (by omega))
      rw [hread, hnext] at this
      omega
    · rw [if_neg h]
      have hnext : prevStable hs (i + 1) = 0 := by
        show stableAfter hs i = _
        rw [stableAfter_eq, if_neg h]
      have hread : prevReading hs (i + 1) = hs i := rfl
      have := ih (i + 1) (fun k hk1 hk2 => hk k (by omega) (by omega))
      rw [hread, hnext] at this
      omega

theorem scrollIters_break (hs : Nat → Int) :
    ∀ fuel i m, i ≤ m → m < i + fuel →
      3 ≤ stableAfter hs m → (∀ j, j < m → stableAfter hs j < 3) →
      scrollIters hs fuel i (prevReading hs i) (prevStable hs i) = m - i + 1 := by
  intro fuel
  induction fuel with
  | zero => intro i m him hmlt _ _; omega
  | succ n ih =>
    intro i m him hmlt hm hmin
    simp only [scrollIters]
    by_cases heq : i = m
    · subst heq
      rw [stableAfter_eq] at hm
      by_cases h : hs i = prevReading hs i
      · rw [if_pos h] at hm
        rw [if_pos h, if_pos (by omega : prevStable hs i + 1 ≥ 3)]
        omega
      · rw [if_neg h] at hm
        omega
    · have hlt : i < m := lt_of_le_of_ne him heq
      have hi : stableAfter hs i < 3 := hmin i hlt
      rw [stableAfter_eq] at hi
      by_cases h : hs i = prevReading hs i
      · rw [if_pos h]
        rw [if_pos h] at hi
        rw [if_neg (by omega : ¬ prevStable hs i + 1 ≥ 3)]
        have hnext : prevStable hs (i + 1) = prevStable hs i + 1 := by
          show stableAfter hs i = _
          rw [stableAfter_eq, if_pos h]
        have hread : prevReading hs (i + 1) = hs i := rfl
        have := ih (i + 1) m (by omega) (by omega) hm hmin
        rw [hread, hnext] at this
        omega
      · rw [if_neg h]
        have hnext : prevStable hs (i + 1) = 0 := by
          show stableAfter hs i = _
          rw [stableAfter_eq, if_neg h]
        have hread : prevReading hs (i + 1) = hs i := rfl
        have := ih (i + 1) m (by omega) (by omega) hm hmin
        rw [hread, hnext] at this
        omega

/-! ## Claim theorems -/

/-- C3 counterexample: `"ab12"` consists of lowercase letters and
digits; the claim says a candidate containing any character outside
`[A-Z0-9]` — lowercase letters included — is rejected, but `PLATE_RE`
is compiled with `re.IGNORECASE` and the match succeeds. -/
theorem plate_match_accepts_lowercase :
    PLATE_RE_match "ab12" = true ∧ ¬ strictPlateSpec "ab12" := by
  constructor
  · decide
  · intro h
    exact absurd (h.2.2 'a' (by decide)) (by decide)

/-- C3 (amended): `validate` is the case-insensitive match: it returns
true iff the candidate — or the candidate minus a single trailing
newline, per Python `$` semantics — is 2 to 8 ASCII letters of either
case or digits.  So candidates with a character outside the
case-insensitive class (other than one trailing newline), or with
length out of bounds, are rejected, while lowercase candidates are
accepted. -/
theorem plate_match_characterization (v : String) :
    PLATE_RE_match v = true ↔
      (insensitivePlateSpec v.data ∨
        (v.data.getLast? = some '\n' ∧ insensitivePlateSpec v.data.dropLast)) := by
  unfold PLATE_RE_match plateBody plateClassChar insensitivePlateSpec
  simp only [Bool.or_eq_true, Bool.and_eq_true, decide_eq_true_eq, beq_iff_eq,
    List.all_eq_true, and_assoc, or_assoc]

/-- C4 counterexample: on input `"AB\tCD"` the claim says normalization
leaves no whitespace of any kind, but `replace(" ", "")` removes only
spaces and `strip()` trims only the ends: the interior tab survives
normalization unchanged. -/
theorem normalize_keeps_interior_tab :
    normalize_plate (some "AB\tCD") = "AB\tCD" ∧
      '\t' ∈ (normalize_plate (some "AB\tCD")).data ∧ isPySpace '\t' = true := by
  refine ⟨by decide, by decide, rfl⟩

/-- C4 (amended): for every input, the normalized string contains no
space character (U+0020) and no lowercase ASCII letter — uppercasing
and space removal are total — but whitespace other than U+0020 in the
interior (tabs, newlines) is not removed. -/
theorem normalize_no_space_no_lower (text : Option String) :
    ∀ c ∈ (normalize_plate text).data, c ≠ ' ' ∧ c.isLower = false := by
  intro c hc
  have hc2 : c ∈ pyDropSpaces (pyUpper (pyStrip (text.getD "").data)) := hc
  rw [pyDropSpaces, List.mem_filter] at hc2
  obtain ⟨hmem, hne⟩ := hc2
  rw [pyUpper, List.mem_map] at hmem
  obtain ⟨a, _, ha⟩ := hmem
  constructor
  · simpa using hne
  · rw [← ha]
    exact toUpper_isLower_false a

/-- Witness for C4's amended theorem at a concrete input. -/
theorem normalize_no_space_no_lower_witness :
    'V' ∈ (normalize_plate (some "vn 64 nwg")).data ∧
      'V' ≠ ' ' ∧ 'V'.isLower = false :=
  ⟨by decide, normalize_no_space_no_lower (some "vn 64 nwg") 'V' (by decide)⟩

/-- C10: degenerate inputs are harmless: Python `None` and the empty
string both normalize to the empty string without error, the empty
string fails validation, and `on_plate_text` then leaves any session
state untouched — empty or missing message text never creates session
state. -/
theorem normalize_degenerate_total (s : Session) :
    normalize_plate none = "" ∧ normalize_plate (some "") = "" ∧
      PLATE_RE_match "" = false ∧
      (on_plate_text none s).1 = s ∧ (on_plate_text (some "") s).1 = s := by
  refine ⟨rfl, rfl, rfl, rfl, rfl⟩

/-- C7: the lazy-load scroll loop terminates for every sequence of
observed scroll heights: it executes at most 35 iterations; when some
iteration `m` is the first whose reading completes a streak of 3
consecutive readings equal to their predecessor, the loop stops right
there (after `min (m + 1) 35` iterations — whichever of the two bounds
comes first); and when no streak of 3 occurs within the bound it runs
all 35 iterations. -/
theorem scroll_loop_terminates (hs : Nat → Int) :
    scrollLoopCount hs ≤ 35 ∧
    (∀ m, 3 ≤ stableAfter hs m → (∀ j, j < m → stableAfter hs j < 3) →
      scrollLoopCount hs = min (m + 1) 35) ∧
    ((∀ m, m < 35 → stableAfter hs m < 3) → scrollLoopCount hs = 35) := by
  refine ⟨scrollIters_le hs 35 0 (-1) 0, ?_, ?_⟩
  · intro m hm hmin
    show scrollIters hs 35 0 (prevReading hs 0) (prevStable hs 0) = min (m + 1) 35
    by_cases h35 : m < 35
    · rw [scrollIters_break hs 35 0 m (Nat.zero_le m) (by omega) hm hmin]
      omega
    · rw [scrollIters_no_break hs 35 0 (fun k _ hk => hmin k (by omega))]
      omega
  · intro hall
    show scrollIters hs 35 0 (prevReading hs 0) (prevStable hs 0) = 35
    exact scrollIters_no_break hs 35 0 (fun k _ hk => hall k (by omega))

/-- Witness for C7 at a concrete height sequence: a page whose scroll
height is constantly 5 never grows, the streak completes at iteration
3, and the loop runs exactly 4 of its 35 allowed iterations. -/
theorem scroll_loop_terminates_witness :
    scrollLoopCount (fun _ => (5 : Int)) = 4 := by
  have h := (scroll_loop_terminates (fun _ => (5 : Int))).2.1 3 (by decide)
    (by decide)
  rw [h]
  omega

/-- C8: for every VRM accepted by the validator, the built URL is the
fixed base, then `?registration=`, then the VRM itself; and concretely
`"vn64nwg"` normalizes to `"VN64NWG"`, validates true, and yields
exactly that URL. -/
theorem build_url_for_valid_vrm (v : String)
    (_hv : PLATE_RE_match v = true) :
    buildURL v = scoreBase ++ "?registration=" ++ v ∧
      normalize_plate (some "vn64nwg") = "VN64NWG" ∧
      PLATE_RE_match "VN64NWG" = true ∧
      buildURL "VN64NWG" = scoreBase ++ "?registration=" ++ "VN64NWG" :=
  ⟨buildURL_eq v, by decide, by decide, buildURL_eq "VN64NWG"⟩

/-- Witness for C8 at the concrete VRM of the spec's scenario. -/
theorem build_url_for_valid_vrm_witness :
    PLATE_RE_match "VN64NWG" = true ∧
      buildURL "VN64NWG" = scoreBase ++ "?registration=" ++ "VN64NWG" :=
  ⟨by decide, (build_url_for_valid_vrm "VN64NWG" (by decide)).1⟩

/-- C9: an input whose normalization fails validation gets exactly the
format-rejection reply, and the session is returned unchanged: no
plate is stored, no URL is built, and a previously stored plate is
preserved. -/
theorem invalid_input_preserves_session (msgText : Option String)
    (s : Session)
    (h : PLATE_RE_match (normalize_plate msgText) = false) :
    on_plate_text msgText s = (s, [PlateReply.text rejectText]) := by
  simp [on_plate_text, h]

/-- Witness for C9 at the spec's scenario input `"AB!12"`, with a
previously stored plate in the session. -/
theorem invalid_input_preserves_session_witness :
    PLATE_RE_match (normalize_plate (some "AB!12")) = false ∧
      on_plate_text (some "AB!12") ⟨some "OLD1"⟩ =
        (⟨some "OLD1"⟩, [PlateReply.text rejectText]) :=
  ⟨by decide,
    invalid_input_preserves_session (some "AB!12") ⟨some "OLD1"⟩ (by decide)⟩

/-- C6: when the screenshot callback fires for a session holding no
plate, the handler answers the query, edits the message to the
send-a-plate-first prompt, and does nothing else — in particular it
performs no capture call for any URL or path. -/
theorem callback_without_plate_prompts (env : CbEnv) (s : Session)
    (h : s.plate = none) :
    on_callback "shot" s env =
        [CbAction.answerQuery, CbAction.editMessage sendPlateFirstText] ∧
      ∀ u p, CbAction.capture u p ∉ on_callback "shot" s env := by
  have hfalsy : plateFalsy s.plate = true := by rw [h]; rfl
  constructor
  · simp [on_callback, hfalsy]
  · intro u p
    simp [on_callback, hfalsy]

/-- Witness for C6 at the empty session. -/
theorem callback_without_plate_prompts_witness :
    on_callback "shot" ⟨none⟩ ⟨true, "x"⟩ =
      [CbAction.answerQuery, CbAction.editMessage sendPlateFirstText] :=
  (callback_without_plate_prompts ⟨true, "x"⟩ ⟨none⟩ rfl).1

/-- C2 counterexample: two concurrent jobs for two different chats
(ids 1 and 2) whose users sent the same plate write to the same
artifact path — the path depends only on the plate, so distinct chats
do not make the paths distinct. -/
theorem distinct_chats_same_path :
    (1 : Nat) ≠ 2 ∧ jobOutPath 1 "VN64NWG" = jobOutPath 2 "VN64NWG" :=
  ⟨by decide, rfl⟩

/-- C2 (amended): the destination path of a job is determined by the
plate alone (`/tmp/` ++ plate ++ `.png`), so two jobs — for the same
chat or for different chats — collide exactly when their plates are
equal: distinct plates give distinct paths, while different chats with
the same plate share one path. -/
theorem job_paths_collide_iff_same_plate (c1 c2 : Nat) (p1 p2 : String) :
    jobOutPath c1 p1 = jobOutPath c2 p2 ↔ p1 = p2 := by
  constructor
  · exact fun h => outPath_inj p1 p2 h
  · intro h
    rw [jobOutPath, jobOutPath, h]

/-- C5: on every exit path of `take_screenshot_full` — success,
navigation timeout, evaluation error or screenshot error — the trace
ends by closing the context and then the browser: both resources are
released before control returns to the caller. -/
theorem capture_always_closes (env : PwEnv) (url out_path : String) :
    ∃ pre, (take_screenshot_full env url out_path).2 =
      pre ++ [PwEvent.closeContext, PwEvent.closeBrowser] :=
  ⟨_, rfl⟩

/-- C1 counterexample: in a run where navigation does not reach
`domcontentloaded` within the 45000 ms bound, `take_screenshot_full`
never makes the screenshot call, and the timeout is the propagated
outcome — contradicting the claim that the capture still proceeds and
the timeout is never propagated. -/
theorem nav_timeout_aborts_capture :
    (take_screenshot_full ⟨true, false, false⟩ (buildURL "VN64NWG")
        (outPath "VN64NWG")).1 = Except.error PwError.navTimeout ∧
      PwEvent.screenshot (outPath "VN64NWG") true ∉
        (take_screenshot_full ⟨true, false, false⟩ (buildURL "VN64NWG")
          (outPath "VN64NWG")).2 := by
  refine ⟨rfl, by decide⟩

/-- C1 (amended): when navigation misses the 45-second
`domcontentloaded` bound, `take_screenshot_full` does not capture: no
screenshot call is made for any path, the context and the browser are
still closed, and the timeout propagates to the caller as the
outcome (bot.py's `try` block around `goto` has a `finally` but no
`except`). -/
theorem nav_timeout_propagates (env : PwEnv) (url out_path : String)
    (h : env.gotoTimesOut = true) :
    (take_screenshot_full env url out_path).1 =
        Except.error PwError.navTimeout ∧
      (∀ p fp, PwEvent.screenshot p fp ∉
        (take_screenshot_full env url out_path).2) ∧
      PwEvent.closeContext ∈ (take_screenshot_full env url out_path).2 ∧
      PwEvent.closeBrowser ∈ (take_screenshot_full env url out_path).2 := by
  refine ⟨?_, ?_, ?_, ?_⟩ <;> simp [take_screenshot_full, h]

/-- Witness for C1's amended theorem at a concrete environment. -/
theorem nav_timeout_propagates_witness :
    (take_screenshot_full ⟨true, false, false⟩ "u" "p").1 =
        Except.error PwError.navTimeout ∧
      PwEvent.closeBrowser ∈ (take_screenshot_full ⟨true, false, false⟩ "u" "p").2 := by
  have h := nav_timeout_propagates ⟨true, false, false⟩ "u" "p" rfl
  exact ⟨h.1, h.2.2.2⟩
